import Mathlib

/-!
Shallow embedding of `kernels/portable/cpu/op_bmm.cpp` (batched matrix-matrix
multiplication, `bmm.out`).

Tensors are modelled as a shape (list of extents), an element-type tag, a flat
row-major backing buffer, and a dynamic-shape flag.  Machine integers of the
source (`ssize_t`, `int64_t`) appear as `Nat` indices; the element arithmetic is
kept generic in the element carrier `α` (the C++ kernel is a template over
`CTYPE`), so the accumulation happens in the element's native arithmetic by
construction.  Fallible steps return `Except Err`; the top-level `bmm_out`
returns the final state of the `out` tensor together with an optional error,
mirroring the in-place mutation of the C++ (`ET_CHECK` aborts are surfaced as
errors, with `out` in whatever state it had reached).

Two collaborators of `op_bmm.cpp` are part of the repository but not among the
sources here and are modelled from the spec where noted: `vec_matmul`
(vec_ops.h) and `resize_tensor` (the runtime's resize capability).
-/

/-- Element-type tags of the runtime (`exec_aten::ScalarType`) as far as the
`bmm` kernel can meet them: the seven real types enumerated by
`ET_FORALL_REAL_TYPES` plus representative tags outside that enumeration
(`Half`, `Bool`). -/
inductive ScalarType where
  | Byte
  | Char
  | Short
  | Int
  | Long
  | Half
  | Float
  | Double
  | Bool
deriving DecidableEq

/-- Tags covered by `ET_FORALL_REAL_TYPES`, i.e. the cases of the dispatch
switch in `bmm_out` that call `bmm_kernel`. -/
def isRealType : ScalarType → Bool
  | .Byte => true
  | .Char => true
  | .Short => true
  | .Int => true
  | .Long => true
  | .Float => true
  | .Double => true
  | _ => false

/-- Model of `exec_aten::Tensor`: per-dimension extents `shape`, an element-type
tag `dtype`, the flat row-major backing buffer `data` (its length is the
storage capacity in elements), and whether the runtime allows this tensor's
shape metadata to be changed (`resizable`, the dynamic-shape case). -/
structure Tensor (α : Type) where
  shape : List Nat
  dtype : ScalarType
  data : List α
  resizable : Bool
deriving DecidableEq

/-- `Tensor::dim()`. -/
def Tensor.dim (t : Tensor α) : Nat := t.shape.length

/-- `Tensor::size(i)` (out-of-range reads, which the C++ never performs on the
paths verified here before a rank check has passed, default to `0`). -/
def Tensor.size (t : Tensor α) (i : Nat) : Nat := t.shape.getD i 0

/-- `Tensor::numel()`: total element count, the product of the extents. -/
def Tensor.numel (t : Tensor α) : Nat := t.shape.prod

/-- Failure values of the call, one per `ET_CHECK` site of `op_bmm.cpp`: the
six aborts of `check_bmm_out_args` in source order, the abort of
`resize_out_tensor`, the same-dtype abort, and the default branch of the
dispatch switch. -/
inductive Err where
  | dimSelfMat2
  | dimSelfOut
  | dimNot3
  | batchNeg
  | batchSelfMat2
  | batchSelfOut
  | sizeMat2Out
  | sizeSelfOut
  | resizeFailed
  | dtypeMismatch
  | unsupportedDtype
deriving DecidableEq

deriving instance DecidableEq for Except

/-- `check_bmm_out_args` of `op_bmm.cpp`: the eight `ET_CHECK_MSG` assertions in
source order.  Note there is no check relating `self.size(2)` and
`mat2.size(1)` (the shared inner dimension).  The `>= 0` batch check is kept
(over `Int`, as for `ssize_t`) even though model extents are natural numbers. -/
def check_bmm_out_args (self mat2 out : Tensor α) : Except Err Unit :=
  if self.dim ≠ mat2.dim then .error .dimSelfMat2
  else if self.dim ≠ out.dim then .error .dimSelfOut
  else if self.dim ≠ 3 then .error .dimNot3
  else if ¬ (0 ≤ (self.size 0 : Int)) then .error .batchNeg
  else if self.size 0 ≠ mat2.size 0 then .error .batchSelfMat2
  else if self.size 0 ≠ out.size 0 then .error .batchSelfOut
  else if mat2.size 2 ≠ out.size 2 then .error .sizeMat2Out
  else if self.size 1 ≠ out.size 1 then .error .sizeSelfOut
  else .ok ()

/-- Modelled from the spec: `resize_tensor` of the runtime is not among the
sources of this development.  Per the spec, resizing is an explicit capability
`resize(new_shape) -> Result<Unit, ResizeError>` on the output tensor: it sets
the shape metadata to exactly `new_shape`, and it fails when the tensor
disallows resizing (static shape) or the backing storage cannot hold the new
element count.  The tensor is a view over its backing buffer, so the buffer
contents themselves are untouched by a metadata update. -/
def resize_tensor (t : Tensor α) (newShape : List Nat) : Except Err (Tensor α) :=
  if t.shape = newShape then .ok t
  else if t.resizable = true ∧ newShape.length = t.dim ∧ newShape.prod ≤ t.data.length then
    .ok { t with shape := newShape }
  else .error .resizeFailed

/-- `resize_out_tensor` of `op_bmm.cpp`: fills `expected_output_size[0..self.dim()-2]`
with `self`'s leading extents, puts `mat2.size(self.dim()-1)` last, and passes the
first `out.dim()` entries of that stack buffer to `resize_tensor` (the `ArrayRef`
is built with length `out.dim()`, so the target shape is truncated or padded —
entries past `self.dim()` are uninitialised in the C++ and modelled as `0`).
The model is meaningful for `self.dim() ≥ 2`; below that the C++ index
arithmetic underflows `size_t`.  A resize failure is a fatal `ET_CHECK`. -/
def resize_out_tensor (self mat2 out : Tensor α) : Except Err (Tensor α) :=
  let m_dim := self.dim - 2
  let n_dim := self.dim - 1
  let buf := (List.range m_dim).map self.size ++ [self.size m_dim, mat2.size n_dim]
  let output_size := buf.take out.dim ++ List.replicate (out.dim - buf.length) 0
  resize_tensor out output_size

/-- Value written by the kernel at flat offset `idx` of `out`'s buffer.  With
`m = self.size 1`, `n = self.size 2`, `p = mat2.size 2`, the C++ writes
`z_data[i*m*p + r*p + c]` (batch `i`, row `r`, column `c`); decoding `idx` back
into `(i, r, c)` gives the accumulation `vec_matmul` performs there.  The inner
product is modelled from the spec (vec_ops.h is not among the sources):
`out[i][r][c] = Σ_k self[i][r][k] * mat2[i][k][c]` for `k` in `[0, n)`, summed
in ascending `k` from `0` in the element's native arithmetic.  Note the bound
`n` and `mat2`'s row stride both come from `self.size 2`, exactly as in the
C++, whether or not it equals `mat2.size 1`. -/
def bmm_write [Add α] [Mul α] [Zero α] (self mat2 : Tensor α) (idx : Nat) : α :=
  let m := self.size 1
  let n := self.size 2
  let p := mat2.size 2
  let i := idx / (m * p)
  let r := (idx % (m * p)) / p
  let c := idx % p
  (List.range n).foldl
    (fun acc k =>
      acc + self.data.getD (i * (m * n) + (r * n + k)) 0 *
        mat2.data.getD (i * (n * p) + (k * p + c)) 0) 0

/-- `bmm_kernel` of `op_bmm.cpp`: returns immediately when `self`, `mat2` or
`out` has zero elements; otherwise writes every flat offset
`idx < batch * m * p` of `out`'s buffer with the accumulated product, leaving
any remaining buffer positions untouched (the C++ writes exactly the offsets
`i*m*p + r*p + c` for `i < batch`, `r < m`, `c < p`). -/
def bmm_kernel [Add α] [Mul α] [Zero α] (self mat2 out : Tensor α) : Tensor α :=
  if self.numel = 0 ∨ mat2.numel = 0 ∨ out.numel = 0 then out
  else
    { out with
      data := (List.range out.data.length).map fun idx =>
        if idx < self.size 0 * (self.size 1 * mat2.size 2) then bmm_write self mat2 idx
        else out.data.getD idx 0 }

/-- Outcome of a call: the final state of the `out` tensor (the C++ mutates it
in place) and `none` on success, `some e` when an `ET_CHECK` fired. -/
structure BmmResult (α : Type) where
  out : Tensor α
  err : Option Err
deriving DecidableEq

/-- `bmm_out` of `op_bmm.cpp`: resize first (a failure there leaves `out`
untouched and is fatal), then `check_bmm_out_args`, then
`ET_CHECK_SAME_DTYPE3(self, mat2, out)`, then the dispatch switch generated by
`ET_FORALL_REAL_TYPES`: a real-typed call runs `bmm_kernel` once, any other
scalar type hits the `default` branch (`Unhandled dtype`). -/
def bmm_out [Add α] [Mul α] [Zero α] (self mat2 out : Tensor α) : BmmResult α :=
  match resize_out_tensor self mat2 out with
  | .error e => ⟨out, some e⟩
  | .ok out1 =>
    match check_bmm_out_args self mat2 out1 with
    | .error e => ⟨out1, some e⟩
    | .ok _ =>
      if self.dtype = mat2.dtype ∧ mat2.dtype = out1.dtype then
        if isRealType self.dtype then ⟨bmm_kernel self mat2 out1, none⟩
        else ⟨out1, some .unsupportedDtype⟩
      else ⟨out1, some .dtypeMismatch⟩

/-- Row-major read of entry `(i, r, c)` of a rank-3 tensor. -/
def entry3 [Zero α] (t : Tensor α) (i r c : Nat) : α :=
  t.data.getD ((i * t.size 1 + r) * t.size 2 + c) 0

/-- Specification-side value of `out[i][r][c]` for inner dimension `m`, written
from the spec's words: the dot product `Σ_k self[i][r][k] * mat2[i][k][c]` for
`k` in `[0, m)`, accumulated from `0` in ascending `k` in the element's native
arithmetic.  This is the definition the kernel is compared against. -/
def bmm_spec_entry [Add α] [Mul α] [Zero α] (self mat2 : Tensor α) (m i r c : Nat) : α :=
  (List.range m).foldl (fun acc k => acc + entry3 self i r k * entry3 mat2 i k c) 0

/-! Helper lemmas about the embedded operations. -/

theorem getD_map_range {α : Type} (f : Nat → α) (L idx : Nat) (d : α) :
    ((List.range L).map f).getD idx d = if idx < L then f idx else d := by
  by_cases h : idx < L
  · rw [if_pos h, List.getD_eq_getElem?_getD]
    simp [List.getElem?_map, List.getElem?_range, h]
  · rw [if_neg h]
    apply List.getD_eq_default
    simpa using Nat.le_of_not_lt h

theorem decode_flat (i r c N P : Nat) (hr : r < N) (hc : c < P) :
    ((i * N + r) * P + c) / (N * P) = i ∧
    (((i * N + r) * P + c) % (N * P)) / P = r ∧
    ((i * N + r) * P + c) % P = c := by
  have hP : 0 < P := Nat.lt_of_le_of_lt (Nat.zero_le c) hc
  have hN : 0 < N := Nat.lt_of_le_of_lt (Nat.zero_le r) hr
  have hs : r * P + c < N * P := by
    calc r * P + c < r * P + P := by omega
    _ = (r + 1) * P := by ring
    _ ≤ N * P := Nat.mul_le_mul_right P hr
  have key : (i * N + r) * P + c = (N * P) * i + (r * P + c) := by ring
  have hdiv : ((i * N + r) * P + c) / (N * P) = i := by
    rw [key, Nat.mul_add_div (Nat.mul_pos hN hP), Nat.div_eq_of_lt hs, Nat.add_zero]
  have hmod : ((i * N + r) * P + c) % (N * P) = r * P + c := by
    rw [key, Nat.mul_add_mod, Nat.mod_eq_of_lt hs]
  refine ⟨hdiv, ?_, ?_⟩
  · rw [hmod, Nat.mul_comm r P, Nat.mul_add_div hP, Nat.div_eq_of_lt hc, Nat.add_zero]
  · rw [Nat.mul_comm (i * N + r) P]
    calc (P * (i * N + r) + c) % P = c % P := Nat.mul_add_mod P _ c
    _ = c := Nat.mod_eq_of_lt hc

theorem size_of_shape3 {α : Type} (t : Tensor α) (a b c : Nat) (h : t.shape = [a, b, c]) :
    t.size 0 = a ∧ t.size 1 = b ∧ t.size 2 = c := by
  rw [Tensor.size, Tensor.size, Tensor.size, h]
  exact ⟨rfl, rfl, rfl⟩

theorem numel_of_shape3 {α : Type} (t : Tensor α) (a b c : Nat) (h : t.shape = [a, b, c]) :
    t.numel = a * (b * c) := by
  rw [Tensor.numel, h]
  simp [List.prod_cons]

theorem resize_tensor_ok {α : Type} (t : Tensor α) (ns : List Nat) (t' : Tensor α)
    (h : resize_tensor t ns = .ok t') :
    t'.shape = ns ∧ t'.data = t.data ∧ t'.dtype = t.dtype ∧ t'.resizable = t.resizable := by
  unfold resize_tensor at h
  split at h
  · rename_i heq
    cases h
    exact ⟨heq, rfl, rfl, rfl⟩
  · split at h
    · cases h
      exact ⟨rfl, rfl, rfl, rfl⟩
    · cases h

theorem resize_out_tensor_eq_of_dim3 {α : Type} (self mat2 out : Tensor α)
    (h3s : self.dim = 3) (h3o : out.dim = 3) :
    resize_out_tensor self mat2 out =
      resize_tensor out [self.size 0, self.size 1, mat2.size 2] := by
  unfold resize_out_tensor
  rw [h3s, h3o]
  norm_num [show List.range 1 = [0] from rfl]

theorem resize_out_tensor_ok {α : Type} (self mat2 out t : Tensor α)
    (h : resize_out_tensor self mat2 out = .ok t) :
    t.data = out.data ∧ t.dtype = out.dtype ∧ t.resizable = out.resizable := by
  unfold resize_out_tensor at h
  have h' := resize_tensor_ok _ _ _ h
  exact ⟨h'.2.1, h'.2.2.1, h'.2.2.2⟩

theorem bmm_kernel_shape {α : Type} [Add α] [Mul α] [Zero α] (self mat2 out : Tensor α) :
    (bmm_kernel self mat2 out).shape = out.shape := by
  unfold bmm_kernel
  split <;> rfl

theorem bmm_kernel_dtype {α : Type} [Add α] [Mul α] [Zero α] (self mat2 out : Tensor α) :
    (bmm_kernel self mat2 out).dtype = out.dtype := by
  unfold bmm_kernel
  split <;> rfl

theorem bmm_kernel_resizable {α : Type} [Add α] [Mul α] [Zero α] (self mat2 out : Tensor α) :
    (bmm_kernel self mat2 out).resizable = out.resizable := by
  unfold bmm_kernel
  split <;> rfl

theorem bmm_kernel_numel {α : Type} [Add α] [Mul α] [Zero α] (self mat2 out : Tensor α) :
    (bmm_kernel self mat2 out).numel = out.numel := by
  rw [Tensor.numel, Tensor.numel, bmm_kernel_shape]

theorem bmm_kernel_data_length {α : Type} [Add α] [Mul α] [Zero α] (self mat2 out : Tensor α) :
    (bmm_kernel self mat2 out).data.length = out.data.length := by
  unfold bmm_kernel
  split
  · rfl
  · simp

theorem bmm_kernel_of_zero {α : Type} [Add α] [Mul α] [Zero α] (self mat2 out : Tensor α)
    (h : self.numel = 0 ∨ mat2.numel = 0 ∨ out.numel = 0) :
    bmm_kernel self mat2 out = out := by
  unfold bmm_kernel
  rw [if_pos h]

theorem bmm_kernel_of_ne {α : Type} [Add α] [Mul α] [Zero α] (self mat2 out : Tensor α)
    (h : ¬ (self.numel = 0 ∨ mat2.numel = 0 ∨ out.numel = 0)) :
    bmm_kernel self mat2 out =
      { out with
        data := (List.range out.data.length).map fun idx =>
          if idx < self.size 0 * (self.size 1 * mat2.size 2) then bmm_write self mat2 idx
          else out.data.getD idx 0 } := by
  unfold bmm_kernel
  rw [if_neg h]

theorem bmm_kernel_idem {α : Type} [Add α] [Mul α] [Zero α] (self mat2 out : Tensor α) :
    bmm_kernel self mat2 (bmm_kernel self mat2 out) = bmm_kernel self mat2 out := by
  by_cases h : self.numel = 0 ∨ mat2.numel = 0 ∨ out.numel = 0
  · rw [bmm_kernel_of_zero self mat2 out h]
    exact bmm_kernel_of_zero self mat2 out h
  · have h2 : ¬ (self.numel = 0 ∨ mat2.numel = 0 ∨ (bmm_kernel self mat2 out).numel = 0) := by
      rw [bmm_kernel_numel]
      exact h
    rw [bmm_kernel_of_ne self mat2 (bmm_kernel self mat2 out) h2,
      bmm_kernel_of_ne self mat2 out h]
    congr 1
    simp only [List.length_map, List.length_range]
    apply List.map_congr_left
    intro idx hidx
    rw [List.mem_range] at hidx
    simp only [getD_map_range, hidx, if_true]
    by_cases hB : idx < self.size 0 * (self.size 1 * mat2.size 2) <;> simp [hB]

theorem bmm_out_resize_error {α : Type} [Add α] [Mul α] [Zero α] (self mat2 out0 : Tensor α)
    (e : Err) (h : resize_out_tensor self mat2 out0 = .error e) :
    bmm_out self mat2 out0 = ⟨out0, some e⟩ := by
  unfold bmm_out
  rw [h]

theorem bmm_out_check_error {α : Type} [Add α] [Mul α] [Zero α] (self mat2 out0 out1 : Tensor α)
    (e : Err) (hres : resize_out_tensor self mat2 out0 = .ok out1)
    (hchk : check_bmm_out_args self mat2 out1 = .error e) :
    bmm_out self mat2 out0 = ⟨out1, some e⟩ := by
  unfold bmm_out
  rw [hres]
  simp only [hchk]

theorem bmm_out_after_checks {α : Type} [Add α] [Mul α] [Zero α] (self mat2 out0 out1 : Tensor α)
    (hres : resize_out_tensor self mat2 out0 = .ok out1)
    (hchk : check_bmm_out_args self mat2 out1 = .ok ()) :
    bmm_out self mat2 out0 =
      if self.dtype = mat2.dtype ∧ mat2.dtype = out1.dtype then
        if isRealType self.dtype then ⟨bmm_kernel self mat2 out1, none⟩
        else ⟨out1, some .unsupportedDtype⟩
      else ⟨out1, some .dtypeMismatch⟩ := by
  unfold bmm_out
  rw [hres]
  simp only [hchk]

theorem bmm_out_err_data {α : Type} [Add α] [Mul α] [Zero α] (self mat2 out0 : Tensor α) :
    (bmm_out self mat2 out0).err = none ∨ (bmm_out self mat2 out0).out.data = out0.data := by
  cases hres : resize_out_tensor self mat2 out0 with
  | error e =>
    right
    rw [bmm_out_resize_error self mat2 out0 e hres]
  | ok out1 =>
    have hdata := (resize_out_tensor_ok self mat2 out0 out1 hres).1
    cases hchk : check_bmm_out_args self mat2 out1 with
    | error e =>
      right
      rw [bmm_out_check_error self mat2 out0 out1 e hres hchk]
      exact hdata
    | ok u =>
      cases u
      rw [bmm_out_after_checks self mat2 out0 out1 hres hchk]
      by_cases hdt : self.dtype = mat2.dtype ∧ mat2.dtype = out1.dtype
      · rw [if_pos hdt]
        by_cases hreal : isRealType self.dtype = true
        · left
          rw [if_pos hreal]
        · right
          rw [if_neg hreal]
          exact hdata
      · right
        rw [if_neg hdt]
        exact hdata

theorem bmm_out_err_none_dtype {α : Type} [Add α] [Mul α] [Zero α] (self mat2 out0 : Tensor α)
    (h : (bmm_out self mat2 out0).err = none) :
    self.dtype = mat2.dtype ∧ mat2.dtype = out0.dtype ∧ isRealType self.dtype = true := by
  rcases hres : resize_out_tensor self mat2 out0 with e | out1
  · rw [bmm_out_resize_error self mat2 out0 e hres] at h
    cases h
  · have hdt0 := (resize_out_tensor_ok self mat2 out0 out1 hres).2.1
    rcases hchk : check_bmm_out_args self mat2 out1 with e | u
    · rw [bmm_out_check_error self mat2 out0 out1 e hres hchk] at h
      cases h
    · cases u
      rw [bmm_out_after_checks self mat2 out0 out1 hres hchk] at h
      by_cases hdt : self.dtype = mat2.dtype ∧ mat2.dtype = out1.dtype
      · rw [if_pos hdt] at h
        by_cases hreal : isRealType self.dtype = true
        · exact ⟨hdt.1, hdt0 ▸ hdt.2, hreal⟩
        · rw [if_neg hreal] at h
          cases h
      · rw [if_neg hdt] at h
        cases h

theorem check_ok_of_shapes {α : Type} (self mat2 out : Tensor α) (b N M P : Nat)
    (hself : self.shape = [b, N, M]) (hmat2 : mat2.shape = [b, M, P])
    (hout : out.shape = [b, N, P]) :
    check_bmm_out_args self mat2 out = .ok () := by
  have hs := size_of_shape3 self b N M hself
  have hm := size_of_shape3 mat2 b M P hmat2
  have ho := size_of_shape3 out b N P hout
  have hds : self.dim = 3 := by simp [Tensor.dim, hself]
  have hdm : mat2.dim = 3 := by simp [Tensor.dim, hmat2]
  have hdo : out.dim = 3 := by simp [Tensor.dim, hout]
  simp [check_bmm_out_args, hds, hdm, hdo, hs.1, hs.2.1, hm.1, hm.2.2, ho.1, ho.2.1,
    ho.2.2]

theorem bmm_out_valid_pipeline {α : Type} [Add α] [Mul α] [Zero α]
    (self mat2 out0 : Tensor α) (b N M P : Nat)
    (hself : self.shape = [b, N, M]) (hmat2 : mat2.shape = [b, M, P])
    (hdt1 : self.dtype = mat2.dtype) (hdt2 : mat2.dtype = out0.dtype)
    (hreal : isRealType self.dtype = true)
    (hresize : out0.shape = [b, N, P] ∨
      (out0.resizable = true ∧ out0.shape.length = 3 ∧ b * N * P ≤ out0.data.length)) :
    ∃ out1 : Tensor α,
      resize_out_tensor self mat2 out0 = .ok out1 ∧
      out1.shape = [b, N, P] ∧ out1.data = out0.data ∧ out1.dtype = out0.dtype ∧
      out1.resizable = out0.resizable ∧
      bmm_out self mat2 out0 = ⟨bmm_kernel self mat2 out1, none⟩ := by
  have hs := size_of_shape3 self b N M hself
  have hm := size_of_shape3 mat2 b M P hmat2
  have h3s : self.dim = 3 := by simp [Tensor.dim, hself]
  have h3o : out0.dim = 3 := by
    rcases hresize with h | h
    · simp [Tensor.dim, h]
    · exact h.2.1
  have hres_eq : resize_out_tensor self mat2 out0 =
      resize_tensor out0 [self.size 0, self.size 1, mat2.size 2] :=
    resize_out_tensor_eq_of_dim3 self mat2 out0 h3s h3o
  rw [hs.1, hs.2.1, hm.2.2] at hres_eq
  by_cases hsh : out0.shape = [b, N, P]
  · have hok : resize_out_tensor self mat2 out0 = .ok out0 := by
      rw [hres_eq]
      unfold resize_tensor
      rw [if_pos hsh]
    refine ⟨out0, hok, hsh, rfl, rfl, rfl, ?_⟩
    have hchk := check_ok_of_shapes self mat2 out0 b N M P hself hmat2 hsh
    rw [bmm_out_after_checks self mat2 out0 out0 hok hchk, if_pos ⟨hdt1, hdt2⟩,
      if_pos hreal]
  · rcases hresize with h | h
    · exact absurd h hsh
    · have hcond : out0.resizable = true ∧ ([b, N, P] : List Nat).length = out0.dim ∧
          ([b, N, P] : List Nat).prod ≤ out0.data.length := by
        refine ⟨h.1, by rw [h3o]; rfl, ?_⟩
        have : ([b, N, P] : List Nat).prod = b * N * P := by
          simp [List.prod_cons]
          ring
        rw [this]
        exact h.2.2
      have hok : resize_out_tensor self mat2 out0 = .ok { out0 with shape := [b, N, P] } := by
        rw [hres_eq]
        unfold resize_tensor
        rw [if_neg hsh, if_pos hcond]
      refine ⟨{ out0 with shape := [b, N, P] }, hok, rfl, rfl, rfl, rfl, ?_⟩
      have hchk := check_ok_of_shapes self mat2 { out0 with shape := [b, N, P] } b N M P
        hself hmat2 rfl
      rw [bmm_out_after_checks self mat2 out0 { out0 with shape := [b, N, P] } hok hchk,
        if_pos ⟨hdt1, hdt2⟩, if_pos hreal]

theorem bmm_kernel_entry {α : Type} [Add α] [Mul α] [Zero α]
    (self mat2 out1 : Tensor α) (b N M P : Nat)
    (hself : self.shape = [b, N, M]) (hmat2 : mat2.shape = [b, M, P])
    (hout : out1.shape = [b, N, P]) (hM : 0 < M)
    (hlen : b * N * P ≤ out1.data.length)
    (i r c : Nat) (hi : i < b) (hr : r < N) (hc : c < P) :
    entry3 (bmm_kernel self mat2 out1) i r c = bmm_spec_entry self mat2 M i r c := by
  have hs := size_of_shape3 self b N M hself
  have hm := size_of_shape3 mat2 b M P hmat2
  have hb : 0 < b := Nat.lt_of_le_of_lt (Nat.zero_le i) hi
  have hN : 0 < N := Nat.lt_of_le_of_lt (Nat.zero_le r) hr
  have hP : 0 < P := Nat.lt_of_le_of_lt (Nat.zero_le c) hc
  have hnz : ¬ (self.numel = 0 ∨ mat2.numel = 0 ∨ out1.numel = 0) := by
    rw [numel_of_shape3 self b N M hself, numel_of_shape3 mat2 b M P hmat2,
      numel_of_shape3 out1 b N P hout]
    push_neg
    refine ⟨?_, ?_, ?_⟩ <;>
      exact Nat.ne_of_gt (Nat.mul_pos (by omega) (Nat.mul_pos (by omega) (by omega)))
  have hidx : (i * N + r) * P + c < b * N * P := by
    have h1 : (i + 1) * N ≤ b * N := Nat.mul_le_mul_right N hi
    have h2 : (i + 1) * N = i * N + N := by ring
    have h3 : i * N + r + 1 ≤ b * N := by omega
    calc (i * N + r) * P + c < (i * N + r) * P + P := by omega
    _ = (i * N + r + 1) * P := by ring
    _ ≤ (b * N) * P := Nat.mul_le_mul_right P h3
  have hlt : (i * N + r) * P + c < out1.data.length := Nat.lt_of_lt_of_le hidx hlen
  have hB : (i * N + r) * P + c < self.size 0 * (self.size 1 * mat2.size 2) := by
    rw [hs.1, hs.2.1, hm.2.2]
    calc (i * N + r) * P + c < b * N * P := hidx
    _ = b * (N * P) := by ring
  rw [bmm_kernel_of_ne self mat2 out1 hnz]
  simp only [entry3, Tensor.size, hout, List.getD_cons_succ, List.getD_cons_zero]
  rw [getD_map_range]
  rw [if_pos hlt]
  simp only [Tensor.size] at hB
  rw [if_pos hB]
  obtain ⟨hdi, hdr, hdc⟩ := decode_flat i r c N P hr hc
  simp only [bmm_write, hs.2.1, hs.2.2, hm.2.2]
  rw [hdi, hdr, hdc]
  simp only [bmm_spec_entry]
  congr 1
  funext acc k
  simp only [entry3, Tensor.size, hself, hmat2, List.getD_cons_succ, List.getD_cons_zero]
  have e1 : i * (N * M) + (r * M + k) = (i * N + r) * M + k := by ring
  have e2 : i * (M * P) + (k * P + c) = (i * M + k) * P + c := by ring
  rw [e1, e2]

/-! Claim theorems. -/

/-- C1, amended: for `self` of shape `(b,N,M)` and `mat2` of shape `(b,M,P)`
with all three tensors of one supported real element type, provided the inner
dimension `M` is positive and `out` can take the resize to `(b,N,P)` (it is
already that shape, or it is rank 3 and resizable) with storage for `b*N*P`
elements, the call succeeds, `out` gets shape `(b,N,P)`, and every entry
`out[i][r][c]` equals `Σ_k self[i][r][k] * mat2[i][k][c]` accumulated in the
element's native arithmetic.  (The claim's unconditional form fails: with
`M = 0` the kernel's zero-element early return leaves `out`'s old contents in
place instead of the empty sum `0`, and a non-resizable mis-shaped `out` makes
the call fail at the resize step.) -/
theorem bmm_out_computes_product {α : Type} [Add α] [Mul α] [Zero α]
    (self mat2 out0 : Tensor α) (b N M P : Nat)
    (hself : self.shape = [b, N, M]) (hmat2 : mat2.shape = [b, M, P])
    (hM : 0 < M)
    (hdt1 : self.dtype = mat2.dtype) (hdt2 : mat2.dtype = out0.dtype)
    (hreal : isRealType self.dtype = true)
    (hlen : b * N * P ≤ out0.data.length)
    (hresize : out0.shape = [b, N, P] ∨ (out0.resizable = true ∧ out0.shape.length = 3)) :
    (bmm_out self mat2 out0).err = none ∧
    (bmm_out self mat2 out0).out.shape = [b, N, P] ∧
    ∀ i r c, i < b → r < N → c < P →
      entry3 (bmm_out self mat2 out0).out i r c = bmm_spec_entry self mat2 M i r c := by
  have hres' : out0.shape = [b, N, P] ∨
      (out0.resizable = true ∧ out0.shape.length = 3 ∧ b * N * P ≤ out0.data.length) := by
    rcases hresize with h | h
    · exact Or.inl h
    · exact Or.inr ⟨h.1, h.2, hlen⟩
  obtain ⟨out1, hok, hsh1, hdata1, hdty1, hrz1, hcall⟩ :=
    bmm_out_valid_pipeline self mat2 out0 b N M P hself hmat2 hdt1 hdt2 hreal hres'
  have hlen1 : b * N * P ≤ out1.data.length := by rw [hdata1]; exact hlen
  rw [hcall]
  refine ⟨rfl, ?_, ?_⟩
  · show (bmm_kernel self mat2 out1).shape = [b, N, P]
    rw [bmm_kernel_shape]
    exact hsh1
  · intro i r c hi hr hc
    show entry3 (bmm_kernel self mat2 out1) i r c = _
    exact bmm_kernel_entry self mat2 out1 b N M P hself hmat2 hsh1 hM hlen1 i r c hi hr hc

/-- Witness for C1's amended theorem: the spec's concrete scenario — batch 2,
`self` of shape `(2,2,3)` with each batch `[[1,2,3],[4,5,6]]`, `mat2` of shape
`(2,3,2)` with each batch `[[1,0],[0,1],[1,1]]` — yields `[[4,5],[10,11]]` per
batch. -/
theorem bmm_out_computes_product_witness :
    (bmm_out (⟨[2, 2, 3], .Long, [1, 2, 3, 4, 5, 6, 1, 2, 3, 4, 5, 6], true⟩ : Tensor Int)
        ⟨[2, 3, 2], .Long, [1, 0, 0, 1, 1, 1, 1, 0, 0, 1, 1, 1], true⟩
        ⟨[2, 2, 2], .Long, [9, 9, 9, 9, 9, 9, 9, 9], true⟩).err = none ∧
    (bmm_out (⟨[2, 2, 3], .Long, [1, 2, 3, 4, 5, 6, 1, 2, 3, 4, 5, 6], true⟩ : Tensor Int)
        ⟨[2, 3, 2], .Long, [1, 0, 0, 1, 1, 1, 1, 0, 0, 1, 1, 1], true⟩
        ⟨[2, 2, 2], .Long, [9, 9, 9, 9, 9, 9, 9, 9], true⟩).out.shape = [2, 2, 2] ∧
    entry3 (bmm_out (⟨[2, 2, 3], .Long, [1, 2, 3, 4, 5, 6, 1, 2, 3, 4, 5, 6], true⟩ : Tensor Int)
        ⟨[2, 3, 2], .Long, [1, 0, 0, 1, 1, 1, 1, 0, 0, 1, 1, 1], true⟩
        ⟨[2, 2, 2], .Long, [9, 9, 9, 9, 9, 9, 9, 9], true⟩).out 0 0 0 = 4 ∧
    entry3 (bmm_out (⟨[2, 2, 3], .Long, [1, 2, 3, 4, 5, 6, 1, 2, 3, 4, 5, 6], true⟩ : Tensor Int)
        ⟨[2, 3, 2], .Long, [1, 0, 0, 1, 1, 1, 1, 0, 0, 1, 1, 1], true⟩
        ⟨[2, 2, 2], .Long, [9, 9, 9, 9, 9, 9, 9, 9], true⟩).out 0 0 1 = 5 ∧
    entry3 (bmm_out (⟨[2, 2, 3], .Long, [1, 2, 3, 4, 5, 6, 1, 2, 3, 4, 5, 6], true⟩ : Tensor Int)
        ⟨[2, 3, 2], .Long, [1, 0, 0, 1, 1, 1, 1, 0, 0, 1, 1, 1], true⟩
        ⟨[2, 2, 2], .Long, [9, 9, 9, 9, 9, 9, 9, 9], true⟩).out 0 1 0 = 10 ∧
    entry3 (bmm_out (⟨[2, 2, 3], .Long, [1, 2, 3, 4, 5, 6, 1, 2, 3, 4, 5, 6], true⟩ : Tensor Int)
        ⟨[2, 3, 2], .Long, [1, 0, 0, 1, 1, 1, 1, 0, 0, 1, 1, 1], true⟩
        ⟨[2, 2, 2], .Long, [9, 9, 9, 9, 9, 9, 9, 9], true⟩).out 0 1 1 = 11 ∧
    entry3 (bmm_out (⟨[2, 2, 3], .Long, [1, 2, 3, 4, 5, 6, 1, 2, 3, 4, 5, 6], true⟩ : Tensor Int)
        ⟨[2, 3, 2], .Long, [1, 0, 0, 1, 1, 1, 1, 0, 0, 1, 1, 1], true⟩
        ⟨[2, 2, 2], .Long, [9, 9, 9, 9, 9, 9, 9, 9], true⟩).out 1 1 0 = 10 ∧
    entry3 (bmm_out (⟨[2, 2, 3], .Long, [1, 2, 3, 4, 5, 6, 1, 2, 3, 4, 5, 6], true⟩ : Tensor Int)
        ⟨[2, 3, 2], .Long, [1, 0, 0, 1, 1, 1, 1, 0, 0, 1, 1, 1], true⟩
        ⟨[2, 2, 2], .Long, [9, 9, 9, 9, 9, 9, 9, 9], true⟩).out 1 1 1 = 11 := by
  have h := bmm_out_computes_product
    (⟨[2, 2, 3], .Long, [1, 2, 3, 4, 5, 6, 1, 2, 3, 4, 5, 6], true⟩ : Tensor Int)
    ⟨[2, 3, 2], .Long, [1, 0, 0, 1, 1, 1, 1, 0, 0, 1, 1, 1], true⟩
    ⟨[2, 2, 2], .Long, [9, 9, 9, 9, 9, 9, 9, 9], true⟩ 2 2 3 2
    rfl rfl (by decide) rfl rfl (by decide) (by decide) (Or.inl rfl)
  refine ⟨h.1, h.2.1, ?_, ?_, ?_, ?_, ?_, ?_⟩
  · exact (h.2.2 0 0 0 (by decide) (by decide) (by decide)).trans (by decide)
  · exact (h.2.2 0 0 1 (by decide) (by decide) (by decide)).trans (by decide)
  · exact (h.2.2 0 1 0 (by decide) (by decide) (by decide)).trans (by decide)
  · exact (h.2.2 0 1 1 (by decide) (by decide) (by decide)).trans (by decide)
  · exact (h.2.2 1 1 0 (by decide) (by decide) (by decide)).trans (by decide)
  · exact (h.2.2 1 1 1 (by decide) (by decide) (by decide)).trans (by decide)

/-- Counterexample to C1 as stated: with inner dimension `m = 0` (`self` of
shape `(1,1,0)`, `mat2` of shape `(1,0,1)`, equal real dtypes, `out` already
shaped `(1,1,1)`), the call succeeds but writes nothing — the kernel's
zero-element early return fires — so `out[0][0][0]` keeps its stale value `5`,
while the claim's sum over `k ∈ [0,0)` is `0`. -/
theorem bmm_out_zero_inner_stale_counterexample :
    (bmm_out (⟨[1, 1, 0], .Long, [], true⟩ : Tensor Int) ⟨[1, 0, 1], .Long, [], true⟩
        ⟨[1, 1, 1], .Long, [5], true⟩).err = none ∧
    entry3 (bmm_out (⟨[1, 1, 0], .Long, [], true⟩ : Tensor Int) ⟨[1, 0, 1], .Long, [], true⟩
        ⟨[1, 1, 1], .Long, [5], true⟩).out 0 0 0 = 5 ∧
    bmm_spec_entry (⟨[1, 1, 0], .Long, [], true⟩ : Tensor Int)
        (⟨[1, 0, 1], .Long, [], true⟩ : Tensor Int) 0 0 0 0 = 0 ∧
    entry3 (bmm_out (⟨[1, 1, 0], .Long, [], true⟩ : Tensor Int) ⟨[1, 0, 1], .Long, [], true⟩
        ⟨[1, 1, 1], .Long, [5], true⟩).out 0 0 0 ≠
      bmm_spec_entry (⟨[1, 1, 0], .Long, [], true⟩ : Tensor Int)
        (⟨[1, 0, 1], .Long, [], true⟩ : Tensor Int) 0 0 0 0 := by
  decide

/-- C2 (confirmed): with a zero shared inner dimension (`self : (b,n,0)`,
`mat2 : (b,0,p)`) and `b, n, p` all positive, a call whose other preconditions
hold succeeds, `out` is resized to `(b,n,p)` with a positive element count, and
no element is written: the zero-element early return of `bmm_kernel` fires
(`self.numel() == 0`), so `out`'s buffer keeps its prior contents instead of
being filled with the zero matrix. -/
theorem bmm_out_zero_inner_no_write {α : Type} [Add α] [Mul α] [Zero α]
    (self mat2 out0 : Tensor α) (b n p : Nat)
    (hself : self.shape = [b, n, 0]) (hmat2 : mat2.shape = [b, 0, p])
    (hb : 0 < b) (hn : 0 < n) (hp : 0 < p)
    (hdt1 : self.dtype = mat2.dtype) (hdt2 : mat2.dtype = out0.dtype)
    (hreal : isRealType self.dtype = true)
    (hresize : out0.shape = [b, n, p] ∨
      (out0.resizable = true ∧ out0.shape.length = 3 ∧ b * n * p ≤ out0.data.length)) :
    (bmm_out self mat2 out0).err = none ∧
    (bmm_out self mat2 out0).out.shape = [b, n, p] ∧
    0 < (bmm_out self mat2 out0).out.numel ∧
    (bmm_out self mat2 out0).out.data = out0.data := by
  obtain ⟨out1, hok, hsh1, hdata1, hdty1, hrz1, hcall⟩ :=
    bmm_out_valid_pipeline self mat2 out0 b n 0 p hself hmat2 hdt1 hdt2 hreal hresize
  have hzero : bmm_kernel self mat2 out1 = out1 := by
    apply bmm_kernel_of_zero
    left
    rw [numel_of_shape3 self b n 0 hself]
    simp
  rw [hcall]
  show (none : Option Err) = none ∧ (bmm_kernel self mat2 out1).shape = [b, n, p] ∧
    0 < (bmm_kernel self mat2 out1).numel ∧ (bmm_kernel self mat2 out1).data = out0.data
  rw [hzero]
  refine ⟨rfl, hsh1, ?_, hdata1⟩
  rw [numel_of_shape3 out1 b n p hsh1]
  exact Nat.mul_pos hb (Nat.mul_pos hn hp)

/-- Witness for C2: `self : (1,2,0)`, `mat2 : (1,0,3)`, `out` resizable with
stale buffer `[7,7,7,7,7,7]` — the call succeeds, `out` becomes `(1,2,3)` with
6 elements, and the buffer still reads `[7,7,7,7,7,7]`. -/
theorem bmm_out_zero_inner_no_write_witness :
    (bmm_out (⟨[1, 2, 0], .Long, [], true⟩ : Tensor Int) ⟨[1, 0, 3], .Long, [], true⟩
        ⟨[1, 1, 1], .Long, [7, 7, 7, 7, 7, 7], true⟩).err = none ∧
    (bmm_out (⟨[1, 2, 0], .Long, [], true⟩ : Tensor Int) ⟨[1, 0, 3], .Long, [], true⟩
        ⟨[1, 1, 1], .Long, [7, 7, 7, 7, 7, 7], true⟩).out.shape = [1, 2, 3] ∧
    0 < (bmm_out (⟨[1, 2, 0], .Long, [], true⟩ : Tensor Int) ⟨[1, 0, 3], .Long, [], true⟩
        ⟨[1, 1, 1], .Long, [7, 7, 7, 7, 7, 7], true⟩).out.numel ∧
    (bmm_out (⟨[1, 2, 0], .Long, [], true⟩ : Tensor Int) ⟨[1, 0, 3], .Long, [], true⟩
        ⟨[1, 1, 1], .Long, [7, 7, 7, 7, 7, 7], true⟩).out.data =
      (⟨[1, 1, 1], .Long, [7, 7, 7, 7, 7, 7], true⟩ : Tensor Int).data :=
  bmm_out_zero_inner_no_write
    (⟨[1, 2, 0], .Long, [], true⟩ : Tensor Int) ⟨[1, 0, 3], .Long, [], true⟩
    ⟨[1, 1, 1], .Long, [7, 7, 7, 7, 7, 7], true⟩ 1 2 3
    rfl rfl (by decide) (by decide) (by decide) rfl rfl (by decide) (by decide)

/-- C3 (confirmed): the validator never compares the shared inner dimension.
At this input `self.shape[2] = 2` differs from `mat2.shape[1] = 3`, every
invariant the validator does check holds, `check_bmm_out_args` returns no
error, and the full call proceeds into the numeric kernel. -/
theorem check_bmm_out_args_skips_inner_dim :
    (⟨[1, 1, 2], .Long, [1, 1], true⟩ : Tensor Int).size 2 ≠
      (⟨[1, 3, 4], .Long, [1, 1, 1, 1, 1, 1, 1, 1, 1, 1, 1, 1], true⟩ : Tensor Int).size 1 ∧
    check_bmm_out_args (⟨[1, 1, 2], .Long, [1, 1], true⟩ : Tensor Int)
        ⟨[1, 3, 4], .Long, [1, 1, 1, 1, 1, 1, 1, 1, 1, 1, 1, 1], true⟩
        ⟨[1, 1, 4], .Long, [0, 0, 0, 0], true⟩ = .ok () ∧
    (bmm_out (⟨[1, 1, 2], .Long, [1, 1], true⟩ : Tensor Int)
        ⟨[1, 3, 4], .Long, [1, 1, 1, 1, 1, 1, 1, 1, 1, 1, 1, 1], true⟩
        ⟨[1, 1, 4], .Long, [0, 0, 0, 0], true⟩).err = none ∧
    (bmm_out (⟨[1, 1, 2], .Long, [1, 1], true⟩ : Tensor Int)
        ⟨[1, 3, 4], .Long, [1, 1, 1, 1, 1, 1, 1, 1, 1, 1, 1, 1], true⟩
        ⟨[1, 1, 4], .Long, [0, 0, 0, 0], true⟩).out =
      bmm_kernel (⟨[1, 1, 2], .Long, [1, 1], true⟩ : Tensor Int)
        ⟨[1, 3, 4], .Long, [1, 1, 1, 1, 1, 1, 1, 1, 1, 1, 1, 1], true⟩
        ⟨[1, 1, 4], .Long, [0, 0, 0, 0], true⟩ := by
  decide

/-- C4, amended: when `self` and `out` both have rank 3, the resolver's target
shape is exactly `[self.shape[0], self.shape[1], mat2.shape[2]]`: a resize
failure makes the whole call fail with that error immediately — before any
validation or numeric work, with `out` untouched — and a successful resize
leaves `out` with exactly the expected shape and its buffer contents intact.
(The claim's unconditional form fails: the C++ passes the expected-size buffer
to `resize_tensor` through an `ArrayRef` of length `out.dim()`, so a
non-rank-3 `out` is resized to a truncated or padded shape, not to
`[self.shape[0], self.shape[1], mat2.shape[2]]`.) -/
theorem resize_out_tensor_first_and_exact {α : Type} [Add α] [Mul α] [Zero α]
    (self mat2 out0 : Tensor α) (h3s : self.dim = 3) (h3o : out0.dim = 3) :
    (∀ e, resize_out_tensor self mat2 out0 = .error e →
      bmm_out self mat2 out0 = ⟨out0, some e⟩) ∧
    (∀ t, resize_out_tensor self mat2 out0 = .ok t →
      t.shape = [self.size 0, self.size 1, mat2.size 2] ∧ t.data = out0.data) := by
  constructor
  · intro e he
    exact bmm_out_resize_error self mat2 out0 e he
  · intro t ht
    rw [resize_out_tensor_eq_of_dim3 self mat2 out0 h3s h3o] at ht
    have h := resize_tensor_ok out0 _ t ht
    exact ⟨h.1, h.2.1⟩

/-- Witness for C4's amended theorem: a rank-3 non-resizable mis-shaped `out`
makes the whole call fail with `resizeFailed` and `out` untouched, while a
rank-3 resizable `out` is brought to exactly `[1,1,1]` with its buffer
preserved. -/
theorem resize_out_tensor_first_and_exact_witness :
    bmm_out (⟨[1, 1, 1], .Long, [5], true⟩ : Tensor Int) ⟨[1, 1, 1], .Long, [7], true⟩
        ⟨[1, 1, 2], .Long, [0, 0], false⟩ =
      ⟨⟨[1, 1, 2], .Long, [0, 0], false⟩, some .resizeFailed⟩ ∧
    ((⟨[1, 1, 1], .Long, [0, 0], true⟩ : Tensor Int).shape = [1, 1, 1] ∧
      (⟨[1, 1, 1], .Long, [0, 0], true⟩ : Tensor Int).data =
        (⟨[1, 1, 2], .Long, [0, 0], true⟩ : Tensor Int).data) :=
  ⟨(resize_out_tensor_first_and_exact (⟨[1, 1, 1], .Long, [5], true⟩ : Tensor Int)
      ⟨[1, 1, 1], .Long, [7], true⟩ ⟨[1, 1, 2], .Long, [0, 0], false⟩
      (by decide) (by decide)).1 .resizeFailed (by decide),
    (resize_out_tensor_first_and_exact (⟨[1, 1, 1], .Long, [5], true⟩ : Tensor Int)
      ⟨[1, 1, 1], .Long, [7], true⟩ ⟨[1, 1, 2], .Long, [0, 0], true⟩
      (by decide) (by decide)).2 ⟨[1, 1, 1], .Long, [0, 0], true⟩ (by decide)⟩

/-- Counterexample to C4 as stated: with `self : (1,1,1)`, `mat2 : (1,1,1)` and
a rank-2 resizable `out` of shape `[5,5]`, the resolver resizes `out` to
`[1,1]` — the first `out.dim() = 2` entries of the expected-size buffer — not
to the expected shape `[1,1,1]`, and the call then fails at the rank check. -/
theorem resize_out_tensor_rank2_counterexample :
    resize_out_tensor (⟨[1, 1, 1], .Long, [5], true⟩ : Tensor Int)
        ⟨[1, 1, 1], .Long, [7], true⟩
        ⟨[5, 5], .Long, [0, 0, 0, 0, 0, 0, 0, 0, 0, 0, 0, 0, 0, 0, 0, 0, 0, 0, 0, 0, 0, 0, 0, 0, 0], true⟩ =
      .ok ⟨[1, 1], .Long, [0, 0, 0, 0, 0, 0, 0, 0, 0, 0, 0, 0, 0, 0, 0, 0, 0, 0, 0, 0, 0, 0, 0, 0, 0], true⟩ ∧
    ([1, 1] : List Nat) ≠ [1, 1, 1] ∧
    bmm_out (⟨[1, 1, 1], .Long, [5], true⟩ : Tensor Int) ⟨[1, 1, 1], .Long, [7], true⟩
        ⟨[5, 5], .Long, [0, 0, 0, 0, 0, 0, 0, 0, 0, 0, 0, 0, 0, 0, 0, 0, 0, 0, 0, 0, 0, 0, 0, 0, 0], true⟩ =
      ⟨⟨[1, 1], .Long, [0, 0, 0, 0, 0, 0, 0, 0, 0, 0, 0, 0, 0, 0, 0, 0, 0, 0, 0, 0, 0, 0, 0, 0, 0], true⟩,
        some .dimSelfOut⟩ := by
  decide

/-- C5 (confirmed): a call that fails — at the resize step, at any of the
validator's checks, at the same-dtype check, or at dispatch — writes no element
data to `out`: the final state of `out`'s buffer equals its initial state, so a
failing call never leaves a partial or inconsistent write.  (Only a fully
successful call reaches `bmm_kernel`, the sole writer.) -/
theorem bmm_out_error_no_write {α : Type} [Add α] [Mul α] [Zero α]
    (self mat2 out0 : Tensor α) (e : Err)
    (h : (bmm_out self mat2 out0).err = some e) :
    (bmm_out self mat2 out0).out.data = out0.data := by
  rcases bmm_out_err_data self mat2 out0 with h' | h'
  · rw [h'] at h
    cases h
  · exact h'

/-- Witness for C5: a dtype-mismatched call fails and leaves the `out` buffer
`[9]` untouched. -/
theorem bmm_out_error_no_write_witness :
    (bmm_out (⟨[1, 1, 1], .Long, [2], true⟩ : Tensor Int) ⟨[1, 1, 1], .Float, [3], true⟩
        ⟨[1, 1, 1], .Long, [9], true⟩).err = some .dtypeMismatch ∧
    (bmm_out (⟨[1, 1, 1], .Long, [2], true⟩ : Tensor Int) ⟨[1, 1, 1], .Float, [3], true⟩
        ⟨[1, 1, 1], .Long, [9], true⟩).out.data =
      (⟨[1, 1, 1], .Long, [9], true⟩ : Tensor Int).data :=
  ⟨by decide,
    bmm_out_error_no_write (⟨[1, 1, 1], .Long, [2], true⟩ : Tensor Int)
      ⟨[1, 1, 1], .Float, [3], true⟩ ⟨[1, 1, 1], .Long, [9], true⟩ .dtypeMismatch (by decide)⟩

/-- C6 (confirmed): under the validity preconditions, if the batch count is
zero or `self`, `mat2`, or the (post-resize) `out` has zero total elements, the
call raises no error and performs no numeric work — `out` is sized to the
expected shape `[b, self.shape[1], mat2.shape[2]]` and its element buffer is
returned unchanged, with nothing written. -/
theorem bmm_out_empty_no_work {α : Type} [Add α] [Mul α] [Zero α]
    (self mat2 out0 : Tensor α) (b N M P : Nat)
    (hself : self.shape = [b, N, M]) (hmat2 : mat2.shape = [b, M, P])
    (hdt1 : self.dtype = mat2.dtype) (hdt2 : mat2.dtype = out0.dtype)
    (hreal : isRealType self.dtype = true)
    (hresize : out0.shape = [b, N, P] ∨
      (out0.resizable = true ∧ out0.shape.length = 3 ∧ b * N * P ≤ out0.data.length))
    (hzero : self.size 0 = 0 ∨ self.numel = 0 ∨ mat2.numel = 0 ∨ b * N * P = 0) :
    (bmm_out self mat2 out0).err = none ∧
    (bmm_out self mat2 out0).out.shape = [b, N, P] ∧
    (bmm_out self mat2 out0).out.data = out0.data := by
  have hs := size_of_shape3 self b N M hself
  obtain ⟨out1, hok, hsh1, hdata1, hdty1, hrz1, hcall⟩ :=
    bmm_out_valid_pipeline self mat2 out0 b N M P hself hmat2 hdt1 hdt2 hreal hresize
  have hzero' : self.numel = 0 ∨ mat2.numel = 0 ∨ out1.numel = 0 := by
    rcases hzero with h | h | h | h
    · left
      rw [numel_of_shape3 self b N M hself]
      rw [hs.1] at h
      rw [h]
      ring
    · exact Or.inl h
    · exact Or.inr (Or.inl h)
    · right
      right
      rw [numel_of_shape3 out1 b N P hsh1]
      calc b * (N * P) = b * N * P := by ring
      _ = 0 := h
  have hker : bmm_kernel self mat2 out1 = out1 := bmm_kernel_of_zero self mat2 out1 hzero'
  rw [hcall]
  show (none : Option Err) = none ∧ (bmm_kernel self mat2 out1).shape = [b, N, P] ∧
    (bmm_kernel self mat2 out1).data = out0.data
  rw [hker]
  exact ⟨rfl, hsh1, hdata1⟩

/-- Witness for C6: a zero-batch call (`self : (0,2,3)`, `mat2 : (0,3,4)`)
succeeds, shapes `out` to `(0,2,4)`, and writes nothing. -/
theorem bmm_out_empty_no_work_witness :
    (bmm_out (⟨[0, 2, 3], .Long, [], true⟩ : Tensor Int) ⟨[0, 3, 4], .Long, [], true⟩
        ⟨[0, 2, 4], .Long, [], true⟩).err = none ∧
    (bmm_out (⟨[0, 2, 3], .Long, [], true⟩ : Tensor Int) ⟨[0, 3, 4], .Long, [], true⟩
        ⟨[0, 2, 4], .Long, [], true⟩).out.shape = [0, 2, 4] ∧
    (bmm_out (⟨[0, 2, 3], .Long, [], true⟩ : Tensor Int) ⟨[0, 3, 4], .Long, [], true⟩
        ⟨[0, 2, 4], .Long, [], true⟩).out.data =
      (⟨[0, 2, 4], .Long, [], true⟩ : Tensor Int).data :=
  bmm_out_empty_no_work (⟨[0, 2, 3], .Long, [], true⟩ : Tensor Int)
    ⟨[0, 3, 4], .Long, [], true⟩ ⟨[0, 2, 4], .Long, [], true⟩ 0 2 3 4
    rfl rfl rfl rfl (by decide) (Or.inl rfl) (Or.inl (by decide))

/-- C7 (confirmed): whenever `self`, `mat2` and `out` do not all share one
element type, the call is rejected with an error — the same-dtype check fails
if no earlier check does — and the numeric computation never runs: `out`'s
buffer is returned exactly as it was, whatever the shapes. -/
theorem bmm_out_rejects_dtype_mismatch {α : Type} [Add α] [Mul α] [Zero α]
    (self mat2 out0 : Tensor α)
    (h : ¬ (self.dtype = mat2.dtype ∧ mat2.dtype = out0.dtype)) :
    (bmm_out self mat2 out0).err ≠ none ∧
    (bmm_out self mat2 out0).out.data = out0.data := by
  constructor
  · intro hn
    obtain ⟨h1, h2, _⟩ := bmm_out_err_none_dtype self mat2 out0 hn
    exact h ⟨h1, h2⟩
  · rcases bmm_out_err_data self mat2 out0 with h' | h'
    · obtain ⟨h1, h2, _⟩ := bmm_out_err_none_dtype self mat2 out0 h'
      exact absurd ⟨h1, h2⟩ h
    · exact h'

/-- Witness for C7: `self` tagged `Long` against `mat2` and `out` tagged
`Float`, with perfectly valid shapes, is rejected and `out`'s buffer `[4]`
survives unchanged. -/
theorem bmm_out_rejects_dtype_mismatch_witness :
    (bmm_out (⟨[1, 1, 1], .Long, [2], true⟩ : Tensor Int) ⟨[1, 1, 1], .Float, [3], true⟩
        ⟨[1, 1, 1], .Float, [4], true⟩).err ≠ none ∧
    (bmm_out (⟨[1, 1, 1], .Long, [2], true⟩ : Tensor Int) ⟨[1, 1, 1], .Float, [3], true⟩
        ⟨[1, 1, 1], .Float, [4], true⟩).out.data =
      (⟨[1, 1, 1], .Float, [4], true⟩ : Tensor Int).data :=
  bmm_out_rejects_dtype_mismatch (⟨[1, 1, 1], .Long, [2], true⟩ : Tensor Int)
    ⟨[1, 1, 1], .Float, [3], true⟩ ⟨[1, 1, 1], .Float, [4], true⟩ (by decide)

/-- C8 (confirmed): once a call has passed resize, shape validation and the
same-dtype check, the dispatch switch decides alone: an element type outside
the `ET_FORALL_REAL_TYPES` enumeration makes the call fail with the
unsupported-dtype error and no kernel runs (`out`'s buffer stays as the resize
left it, i.e. the caller's data); a supported element type makes the call
succeed as exactly one application of `bmm_kernel` to the resized `out`. -/
theorem bmm_out_dispatch_real_types {α : Type} [Add α] [Mul α] [Zero α]
    (self mat2 out0 out1 : Tensor α)
    (hres : resize_out_tensor self mat2 out0 = .ok out1)
    (hchk : check_bmm_out_args self mat2 out1 = .ok ())
    (hdt : self.dtype = mat2.dtype ∧ mat2.dtype = out1.dtype) :
    (isRealType self.dtype = false →
      bmm_out self mat2 out0 = ⟨out1, some .unsupportedDtype⟩ ∧ out1.data = out0.data) ∧
    (isRealType self.dtype = true →
      bmm_out self mat2 out0 = ⟨bmm_kernel self mat2 out1, none⟩) := by
  have hdata := (resize_out_tensor_ok self mat2 out0 out1 hres).1
  constructor
  · intro hfalse
    refine ⟨?_, hdata⟩
    rw [bmm_out_after_checks self mat2 out0 out1 hres hchk, if_pos hdt,
      if_neg (by rw [hfalse]; exact Bool.false_ne_true)]
  · intro htrue
    rw [bmm_out_after_checks self mat2 out0 out1 hres hchk, if_pos hdt, if_pos htrue]

/-- Witness for C8: a `Half`-tagged call (outside the real-type enumeration)
fails at dispatch with `out` untouched; a `Long`-tagged call runs the kernel
once and succeeds. -/
theorem bmm_out_dispatch_real_types_witness :
    bmm_out (⟨[1, 1, 1], .Half, [2], true⟩ : Tensor Int) ⟨[1, 1, 1], .Half, [3], true⟩
        ⟨[1, 1, 1], .Half, [9], true⟩ =
      ⟨⟨[1, 1, 1], .Half, [9], true⟩, some .unsupportedDtype⟩ ∧
    bmm_out (⟨[1, 1, 1], .Long, [2], true⟩ : Tensor Int) ⟨[1, 1, 1], .Long, [3], true⟩
        ⟨[1, 1, 1], .Long, [9], true⟩ =
      ⟨bmm_kernel (⟨[1, 1, 1], .Long, [2], true⟩ : Tensor Int) ⟨[1, 1, 1], .Long, [3], true⟩
        ⟨[1, 1, 1], .Long, [9], true⟩, none⟩ :=
  ⟨((bmm_out_dispatch_real_types (⟨[1, 1, 1], .Half, [2], true⟩ : Tensor Int)
      ⟨[1, 1, 1], .Half, [3], true⟩ ⟨[1, 1, 1], .Half, [9], true⟩
      ⟨[1, 1, 1], .Half, [9], true⟩ (by decide) (by decide) (by decide)).1 (by decide)).1,
    (bmm_out_dispatch_real_types (⟨[1, 1, 1], .Long, [2], true⟩ : Tensor Int)
      ⟨[1, 1, 1], .Long, [3], true⟩ ⟨[1, 1, 1], .Long, [9], true⟩
      ⟨[1, 1, 1], .Long, [9], true⟩ (by decide) (by decide) (by decide)).2 (by decide)⟩

/-- C9 (confirmed): for valid inputs, calling `bmm_out` a second time with the
same `self` and `mat2` on the `out` produced by the first call changes nothing:
the resize step accepts the already-correct shape without touching the tensor
(no reallocation), and the recomputed kernel output is identical to the first
call's — the written region depends only on `self` and `mat2`, not on `out`'s
prior contents. -/
theorem bmm_out_second_call_identical {α : Type} [Add α] [Mul α] [Zero α]
    (self mat2 out0 : Tensor α) (b N M P : Nat)
    (hself : self.shape = [b, N, M]) (hmat2 : mat2.shape = [b, M, P])
    (hdt1 : self.dtype = mat2.dtype) (hdt2 : mat2.dtype = out0.dtype)
    (hreal : isRealType self.dtype = true)
    (hresize : out0.shape = [b, N, P] ∨
      (out0.resizable = true ∧ out0.shape.length = 3 ∧ b * N * P ≤ out0.data.length)) :
    bmm_out self mat2 ((bmm_out self mat2 out0).out) =
      ⟨(bmm_out self mat2 out0).out, none⟩ ∧
    resize_out_tensor self mat2 ((bmm_out self mat2 out0).out) =
      .ok ((bmm_out self mat2 out0).out) := by
  have hs := size_of_shape3 self b N M hself
  have hm := size_of_shape3 mat2 b M P hmat2
  obtain ⟨out1, hok, hsh1, hdata1, hdty1, hrz1, hcall⟩ :=
    bmm_out_valid_pipeline self mat2 out0 b N M P hself hmat2 hdt1 hdt2 hreal hresize
  have hO : (bmm_out self mat2 out0).out = bmm_kernel self mat2 out1 := by rw [hcall]
  rw [hO]
  have hsh : (bmm_kernel self mat2 out1).shape = [b, N, P] := by
    rw [bmm_kernel_shape]
    exact hsh1
  have h3s : self.dim = 3 := by simp [Tensor.dim, hself]
  have h3o : (bmm_kernel self mat2 out1).dim = 3 := by simp [Tensor.dim, hsh]
  have hok2 : resize_out_tensor self mat2 (bmm_kernel self mat2 out1) =
      .ok (bmm_kernel self mat2 out1) := by
    rw [resize_out_tensor_eq_of_dim3 self mat2 _ h3s h3o]
    unfold resize_tensor
    rw [if_pos (by rw [hsh, hs.1, hs.2.1, hm.2.2])]
  refine ⟨?_, hok2⟩
  have hdty : mat2.dtype = (bmm_kernel self mat2 out1).dtype := by
    rw [bmm_kernel_dtype, hdty1]
    exact hdt2
  obtain ⟨out2, hok2', hsh2, hdata2, hdty2, hrz2, hcall2⟩ :=
    bmm_out_valid_pipeline self mat2 (bmm_kernel self mat2 out1) b N M P
      hself hmat2 hdt1 hdty hreal (Or.inl hsh)
  have hout2 : out2 = bmm_kernel self mat2 out1 := by
    rw [hok2] at hok2'
    exact (Except.ok.inj hok2').symm
  rw [hcall2, hout2, bmm_kernel_idem]

/-- Witness for C9: on the concrete `(2,2,3) × (2,3,2)` scenario, the second
call returns the first call's `out` unchanged and its resize is a no-op. -/
theorem bmm_out_second_call_identical_witness :
    bmm_out (⟨[2, 2, 3], .Long, [1, 2, 3, 4, 5, 6, 1, 2, 3, 4, 5, 6], true⟩ : Tensor Int)
        ⟨[2, 3, 2], .Long, [1, 0, 0, 1, 1, 1, 1, 0, 0, 1, 1, 1], true⟩
        ((bmm_out (⟨[2, 2, 3], .Long, [1, 2, 3, 4, 5, 6, 1, 2, 3, 4, 5, 6], true⟩ : Tensor Int)
          ⟨[2, 3, 2], .Long, [1, 0, 0, 1, 1, 1, 1, 0, 0, 1, 1, 1], true⟩
          ⟨[2, 2, 2], .Long, [0, 0, 0, 0, 0, 0, 0, 0], true⟩).out) =
      ⟨(bmm_out (⟨[2, 2, 3], .Long, [1, 2, 3, 4, 5, 6, 1, 2, 3, 4, 5, 6], true⟩ : Tensor Int)
          ⟨[2, 3, 2], .Long, [1, 0, 0, 1, 1, 1, 1, 0, 0, 1, 1, 1], true⟩
          ⟨[2, 2, 2], .Long, [0, 0, 0, 0, 0, 0, 0, 0], true⟩).out, none⟩ ∧
    resize_out_tensor (⟨[2, 2, 3], .Long, [1, 2, 3, 4, 5, 6, 1, 2, 3, 4, 5, 6], true⟩ : Tensor Int)
        ⟨[2, 3, 2], .Long, [1, 0, 0, 1, 1, 1, 1, 0, 0, 1, 1, 1], true⟩
        ((bmm_out (⟨[2, 2, 3], .Long, [1, 2, 3, 4, 5, 6, 1, 2, 3, 4, 5, 6], true⟩ : Tensor Int)
          ⟨[2, 3, 2], .Long, [1, 0, 0, 1, 1, 1, 1, 0, 0, 1, 1, 1], true⟩
          ⟨[2, 2, 2], .Long, [0, 0, 0, 0, 0, 0, 0, 0], true⟩).out) =
      .ok ((bmm_out (⟨[2, 2, 3], .Long, [1, 2, 3, 4, 5, 6, 1, 2, 3, 4, 5, 6], true⟩ : Tensor Int)
          ⟨[2, 3, 2], .Long, [1, 0, 0, 1, 1, 1, 1, 0, 0, 1, 1, 1], true⟩
          ⟨[2, 2, 2], .Long, [0, 0, 0, 0, 0, 0, 0, 0], true⟩).out) :=
  bmm_out_second_call_identical
    (⟨[2, 2, 3], .Long, [1, 2, 3, 4, 5, 6, 1, 2, 3, 4, 5, 6], true⟩ : Tensor Int)
    ⟨[2, 3, 2], .Long, [1, 0, 0, 1, 1, 1, 1, 0, 0, 1, 1, 1], true⟩
    ⟨[2, 2, 2], .Long, [0, 0, 0, 0, 0, 0, 0, 0], true⟩ 2 2 3 2
    rfl rfl rfl rfl (by decide) (Or.inl rfl)

/-- C10, amended: when `self` and `out` are rank 3 and the resize step
succeeds, the resized `out` carries exactly the extents the validator's three
out-related checks compare against, so those checks necessarily pass; any
validation failure after a successful resize can then only come from the
rank check between `self` and `mat2` or from their batch-count check.  (The
claim's unconditional form fails: with a non-rank-3 `out` the resize can
succeed — it targets a truncated shape — and validation then fails at the
`self`/`out` rank check, which is not a disagreement between `self` and `mat2`;
see the counterexample.) -/
theorem check_after_resize_out_checks_hold {α : Type} (self mat2 out0 t : Tensor α)
    (h3s : self.dim = 3) (h3o : out0.dim = 3)
    (hok : resize_out_tensor self mat2 out0 = .ok t) :
    self.size 0 = t.size 0 ∧ self.size 1 = t.size 1 ∧ mat2.size 2 = t.size 2 ∧
    ∀ e, check_bmm_out_args self mat2 t = .error e →
      e = Err.dimSelfMat2 ∨ e = Err.batchSelfMat2 := by
  rw [resize_out_tensor_eq_of_dim3 self mat2 out0 h3s h3o] at hok
  have hsh : t.shape = [self.size 0, self.size 1, mat2.size 2] :=
    (resize_tensor_ok out0 _ t hok).1
  have hts := size_of_shape3 t _ _ _ hsh
  have h3t : t.dim = 3 := by simp [Tensor.dim, hsh]
  refine ⟨hts.1.symm, hts.2.1.symm, hts.2.2.symm, ?_⟩
  intro e he
  unfold check_bmm_out_args at he
  by_cases h1 : self.dim ≠ mat2.dim
  · rw [if_pos h1] at he
    injection he with h
    exact Or.inl h.symm
  · rw [if_neg h1, if_neg (not_not_intro (h3s.trans h3t.symm)),
      if_neg (not_not_intro h3s), if_neg (not_not_intro (Int.natCast_nonneg _))] at he
    by_cases h5 : self.size 0 ≠ mat2.size 0
    · rw [if_pos h5] at he
      injection he with h
      exact Or.inr h.symm
    · rw [if_neg h5, if_neg (not_not_intro hts.1.symm),
        if_neg (not_not_intro hts.2.2.symm), if_neg (not_not_intro hts.2.1.symm)] at he
      cases he

/-- Witness for C10's amended theorem: with rank-3 `self` and `out`, after the
(here trivial) resize the three out-related extents agree, and the only way
this fully-agreeing input could fail validation is ruled out: the check
returns no error at all (shown through the implication being vacuous). -/
theorem check_after_resize_out_checks_hold_witness :
    (⟨[2, 3, 4], .Long, [0], true⟩ : Tensor Int).size 0 =
      (⟨[2, 3, 5], .Long, [0], true⟩ : Tensor Int).size 0 ∧
    (⟨[2, 3, 4], .Long, [0], true⟩ : Tensor Int).size 1 =
      (⟨[2, 3, 5], .Long, [0], true⟩ : Tensor Int).size 1 ∧
    (⟨[2, 4, 5], .Long, [0], true⟩ : Tensor Int).size 2 =
      (⟨[2, 3, 5], .Long, [0], true⟩ : Tensor Int).size 2 ∧
    ∀ e, check_bmm_out_args (⟨[2, 3, 4], .Long, [0], true⟩ : Tensor Int)
        (⟨[2, 4, 5], .Long, [0], true⟩ : Tensor Int)
        (⟨[2, 3, 5], .Long, [0], true⟩ : Tensor Int) = .error e →
      e = Err.dimSelfMat2 ∨ e = Err.batchSelfMat2 :=
  check_after_resize_out_checks_hold (⟨[2, 3, 4], .Long, [0], true⟩ : Tensor Int)
    ⟨[2, 4, 5], .Long, [0], true⟩ ⟨[2, 3, 5], .Long, [0], true⟩
    ⟨[2, 3, 5], .Long, [0], true⟩ (by decide) (by decide) (by decide)

/-- Counterexample to C10 as stated: `self : (1,1,1)` and `mat2 : (1,1,1)`
agree in rank and batch count, `out` has rank 2 with shape `[1,1]`, and the
resize step succeeds (its truncated target is `[1,1]`, already `out`'s shape) —
yet validation fails, with an error (`self`/`out` rank disagreement) that is
not a rank or batch-count disagreement between `self` and `mat2`, and the
out-related extent comparison `mat2.size(2) == out.size(2)` does not hold. -/
theorem resize_then_check_rank2_counterexample :
    resize_out_tensor (⟨[1, 1, 1], .Long, [2], true⟩ : Tensor Int)
        ⟨[1, 1, 1], .Long, [3], true⟩ ⟨[1, 1], .Long, [0], true⟩ =
      .ok ⟨[1, 1], .Long, [0], true⟩ ∧
    check_bmm_out_args (⟨[1, 1, 1], .Long, [2], true⟩ : Tensor Int)
        ⟨[1, 1, 1], .Long, [3], true⟩ ⟨[1, 1], .Long, [0], true⟩ =
      .error .dimSelfOut ∧
    (⟨[1, 1, 1], .Long, [2], true⟩ : Tensor Int).dim =
      (⟨[1, 1, 1], .Long, [3], true⟩ : Tensor Int).dim ∧
    (⟨[1, 1, 1], .Long, [2], true⟩ : Tensor Int).size 0 =
      (⟨[1, 1, 1], .Long, [3], true⟩ : Tensor Int).size 0 ∧
    (⟨[1, 1, 1], .Long, [3], true⟩ : Tensor Int).size 2 ≠
      (⟨[1, 1], .Long, [0], true⟩ : Tensor Int).size 2 ∧
    Err.dimSelfOut ≠ Err.dimSelfMat2 ∧ Err.dimSelfOut ≠ Err.batchSelfMat2 := by
  decide
